import Mathlib

/-!
Verification of the query-pipelining engine of the xitca-web postgres client
(`postgres/src/pipeline.rs`), as a shallow embedding in Lean 4.

Conventions of the embedding:
- the byte buffer `BytesMut` is a `List Nat` of bytes; `truncate n` is `List.take n`;
- the `VecDeque` of column-schema references is a `List (List Column)`:
  `push_back` appends at the end, `pop_front` takes the head;
- the transport's reply cursor (`Response::recv`) is modelled by a list of
  pending backend messages: `recv` consumes the head, and an exhausted list
  surfaces as a transport error (the connection ended);
- fallible operations return `Except Error _`; a Rust panic (from `assert!` or
  `unimplemented!`) is embedded as the distinguished error `Error.panic`,
  which is not a structured error value returned to the caller;
- the compile-time const generics `SYNC_MODE` and `ENCODE_SYNC` become
  ordinary `Bool` arguments.
-/

/-- A result-column of a statement (name and type oid); the pipeline only ever
stores references to these and never inspects them. -/
structure Column where
  name : String
  oid : Nat
deriving DecidableEq, Repr

/-- Modelled from the spec: the `Statement` object (its module is not under
`src/`) "exposes parameter-count/type validation and the column schema (names,
types, binary/text format) used by both encoding and decoding". `params` holds
the expected parameter type oids, `columns` the result-column schema. -/
structure Statement where
  params : List Nat
  columns : List Column
deriving DecidableEq, Repr

/-- An abstract SQL parameter value bound to a query. -/
def Param := Nat
deriving DecidableEq, Repr

/-- The error type of the driver (`error.rs` is not under `src/`), restricted
to the variants the pipeline code produces. `panic` embeds a Rust process
abort (`assert!` / `unimplemented!` failure) with its message: it is a fatal
assertion, not a structured error value returned to the immediate caller. -/
inductive Error where
  /-- `Error::unexpected()`: an unexpected backend message kind. -/
  | unexpected
  /-- Modelled from the spec: the binding-mismatch failure raised by the
  statement's parameter-arity validation (expected, got). -/
  | bindMismatch (expected got : Nat)
  /-- An encoding failure raised while serializing a query, abstract code. -/
  | encode (code : Nat)
  /-- The reply cursor failed: connection reset or upstream decode failure. -/
  | transport
  /-- A fatal assertion (Rust panic) carrying the panic message. -/
  | panic (msg : String)
deriving DecidableEq, Repr

/-- Classification from the spec's propagation policy: recoverable conditions
are returned to the immediate caller as structured error values, while a
fatal assertion (panic) aborts and is not such a value. -/
def Error.isStructured : Error → Bool
  | .panic _ => false
  | _ => true

/-- The backend messages the pipeline state machine inspects
(`backend::Message`); every message kind it does not match on is collapsed
into `other` (the code handles them all through a `_` arm). Payload bodies
are raw bytes. -/
inductive Message where
  | bindComplete
  | dataRow (body : List Nat)
  | commandComplete (body : List Nat)
  | readyForQuery
  | other (kind : Nat)
deriving DecidableEq, Repr

/-- The scratch list of decoded byte ranges shared across rows
(`Vec<Option<Range<usize>>>`). -/
def Ranges := List (Option (Nat × Nat))
deriving DecidableEq, Repr

/-- A decoded row view: the query's column schema plus the raw record bytes
(`Row<'_>`; its decoder lives outside `src/`). -/
structure Row where
  columns : List Column
  body : List Nat
deriving DecidableEq, Repr

/-- Modelled from the spec: the row decoder (`Row::try_new`, not under
`src/`): "given column schema + raw row bytes + scratch range cache, produces
a Row view"; range computation beyond this boundary is out of scope, so the
scratch cache is threaded through unchanged. -/
def Row.tryNew (columns : List Column) (body : List Nat) (ranges : Ranges) :
    Row × Ranges :=
  (⟨columns, body⟩, ranges)

/-- Modelled from the spec: the outcome decoder
(`crate::query::decode::body_to_affected_rows`, not under `src/`): "given a
command-complete payload, produces an affected-row count". The payload's
ASCII digits are read as the count. -/
def bodyToAffectedRows (body : List Nat) : Nat :=
  (body.filter (fun b => 48 ≤ b && b ≤ 57)).foldl (fun acc b => acc * 10 + (b - 48)) 0

/-- Modelled from the spec: the wire bytes of the synchronization marker
appended by the external codec (`frontend::sync`): one Sync message. -/
def syncMessageBytes : List Nat := [83, 0, 0, 0, 4]

/-- The external codec's `frontend::sync(buf)`: appends a single
synchronization marker to the buffer. -/
def frontendSync (buf : List Nat) : List Nat :=
  buf ++ syncMessageBytes

/-- The pipeline builder: the ordered pending column-schema queue and the
shared byte buffer of encoded queries. `syncMode` embeds the compile-time
`SYNC_MODE` flag; the `Owned`/`Borrowed` buffer wrapper duality only affects
allocation and is transparent to the byte contents, so `buf` is the bytes. -/
structure Pipeline where
  syncMode : Bool
  columns : List (List Column)
  buf : List Nat
deriving DecidableEq, Repr

/-- `Pipeline::with_capacity(cap)`: a fresh pipeline with empty queue and
empty buffer; `cap` only pre-reserves allocation and carries no semantics. -/
def Pipeline.withCapacity (syncMode : Bool) (_cap : Nat) : Pipeline :=
  { syncMode := syncMode, columns := [], buf := [] }

/-- `Pipeline::new()`: the sync-mode constructor. -/
def Pipeline.new : Pipeline :=
  Pipeline.withCapacity true 0

/-- `Pipeline::unsync()`: the unsync-mode constructor. -/
def Pipeline.unsync : Pipeline :=
  Pipeline.withCapacity false 0

/-- `Pipeline::with_capacity_from_buf(cap, buf)`: caller-supplied buffer is
cleared on construction. -/
def Pipeline.withCapacityFromBuf (syncMode : Bool) (_cap : Nat)
    (buf : List Nat) : Pipeline :=
  { syncMode := syncMode, columns := [], buf := List.take 0 buf }

/-- The `Default` impl for `Pipeline<'_, Owned, true>`: its body is
`unimplemented!("Please use Pipeline::new or Pipeline::unsync")`, a panic. -/
def Pipeline.defaultImpl : Except Error Pipeline :=
  .error (.panic "not implemented: Please use Pipeline::new or Pipeline::unsync")

/-- What the external encoder (`crate::query::encode::encode_maybe_sync`,
not under `src/`) did to the buffer for one query: the bytes it appended
(possibly partial when it failed) and its error, if any. -/
structure EncodeOutcome where
  appended : List Nat
  err : Option Error
deriving DecidableEq, Repr

/-- An encoder: for a given sync mode, statement and parameter sequence,
the outcome `encode_maybe_sync` produces. The encoder itself is an external
collaborator; the pipeline is verified for every encoder. -/
def Encoder := Bool → Statement → List Param → EncodeOutcome

/-- `Pipeline::query_raw(stmt, params)`:
parameter arity is validated first (`stmt.params_assert`, modelled from the
spec as the binding-mismatch failure since its body is not under `src/`);
then the buffer length is recorded, the query is encoded into the buffer, on
success the statement's column schema is pushed onto the queue, and on
encoding failure the buffer is truncated back to the recorded length.
Returns the call's result together with the updated pipeline. -/
def Pipeline.queryRaw (p : Pipeline) (stmt : Statement) (params : List Param)
    (enc : Encoder) : Except Error Unit × Pipeline :=
  if params.length ≠ stmt.params.length then
    (.error (.bindMismatch stmt.params.length params.length), p)
  else
    let len := p.buf.length
    let out := enc p.syncMode stmt params
    match out.err with
    | none =>
        (.ok (), { p with buf := p.buf ++ out.appended,
                          columns := p.columns ++ [stmt.columns] })
    | some e =>
        (.error e, { p with buf := (p.buf ++ out.appended).take len })

/-- `Pipeline::query(stmt, params)`: delegates to `query_raw` over the
slice iterator of the parameters. -/
def Pipeline.query (p : Pipeline) (stmt : Statement) (params : List Param)
    (enc : Encoder) : Except Error Unit × Pipeline :=
  p.queryRaw stmt params enc

/-- A sequence of builder calls applied in order: each `query_raw` call's
error (if any) is returned to the caller and the pipeline keeps its state. -/
def Pipeline.runQueries (enc : Encoder) : Pipeline → List (Statement × List Param) → Pipeline
  | p, [] => p
  | p, q :: qs => Pipeline.runQueries enc (p.queryRaw q.1 q.2 enc).2 qs

/-- Whether one builder call succeeds under encoder `enc` in mode `m`:
the arity check passes and the encoder reports no error. -/
def querySucceeds (enc : Encoder) (m : Bool) (q : Statement × List Param) : Bool :=
  q.2.length == q.1.params.length && (enc m q.1 q.2).err.isNone

/-- `Client::_pipeline::<SYNC_MODE, ENCODE_SYNC>`: asserts the buffer is
non-empty (a panic on violation), computes the boundary count handed to the
transport — the queue length in sync mode, `1` in unsync mode where a
synchronization marker is first appended when `ENCODE_SYNC` holds — and hands
the buffer to the transport. The result models the pair
(bytes handed to the transport, boundary count). -/
def Client.pipelineDispatch (SYNC_MODE ENCODE_SYNC : Bool)
    (columns : List (List Column)) (buf : List Nat) :
    Except Error (List Nat × Nat) :=
  if buf.isEmpty then
    .error (.panic "assertion failed: !buf.is_empty()")
  else if SYNC_MODE then
    .ok (buf, columns.length)
  else if ENCODE_SYNC then
    .ok (frontendSync buf, 1)
  else
    .ok (buf, 1)

/-- The streaming response of a submitted pipeline (`PipelineStream`): the
reply cursor's pending messages, the remaining column-schema queue and the
shared scratch range cache. -/
structure PipelineStream where
  res : List Message
  columns : List (List Column)
  ranges : Ranges
deriving DecidableEq, Repr

/-- `Client::pipeline(pipe)`: submits through `_pipeline::<SYNC_MODE, true>`
and on success combines the transport's reply cursor (the messages the server
will send, an input of the model) with the pipeline's schema queue and a
fresh scratch cache into the stream. -/
def Client.pipelineRun (p : Pipeline) (replies : List Message) :
    Except Error PipelineStream :=
  match Client.pipelineDispatch p.syncMode true p.columns p.buf with
  | .ok _ => .ok { res := replies, columns := p.columns, ranges := [] }
  | .error e => .error e

/-- A per-query cursor inside the stream (`PipelineItem`): the `finished`
flag and the query's column schema. The borrowed parent stream is passed
explicitly to its operations. -/
structure PipelineItem where
  finished : Bool
  columns : List Column
deriving DecidableEq, Repr

/-- The body of the advance loop of `PipelineStream::try_next`, entered when
the schema queue is non-empty with front `c` and tail `cs` (the queue does not
change while the loop spins): reads messages until bind-complete yields the
item bound to `c` and pops it off the queue, skipping data-row,
command-complete (catch-up after an abandoned item) and ready-for-query
messages; any other message kind fails with the unexpected-message error;
an exhausted cursor is a transport failure. -/
def tryNextLoop (c : List Column) (cs : List (List Column)) (ranges : Ranges) :
    List Message → Except Error (Option PipelineItem × PipelineStream)
  | [] => .error .transport
  | Message.bindComplete :: rest =>
      .ok (some { finished := false, columns := c },
           { res := rest, columns := cs, ranges := ranges })
  | Message.dataRow _ :: rest => tryNextLoop c cs ranges rest
  | Message.commandComplete _ :: rest => tryNextLoop c cs ranges rest
  | Message.readyForQuery :: rest => tryNextLoop c cs ranges rest
  | Message.other _ :: _rest => .error .unexpected

/-- `PipelineStream::try_next` (`AsyncLendingIterator` impl): while the
schema queue is non-empty run the advance loop; an empty queue returns
"no more items" at once. Returns the result together with the stream state
after the call. -/
def PipelineStream.tryNext (s : PipelineStream) :
    Except Error (Option PipelineItem × PipelineStream) :=
  match s.columns with
  | [] => .ok (none, s)
  | c :: cs => tryNextLoop c cs s.ranges s.res

/-- `PipelineStream::size_hint`: exactly the remaining queue length. -/
def PipelineStream.sizeHint (s : PipelineStream) : Nat × Option Nat :=
  (s.columns.length, some s.columns.length)

/-- `PipelineItem::try_next` (`AsyncLendingIterator` impl): a finished item
returns "no more rows" without touching the reply cursor; otherwise one
message is read: a data row is decoded against the item's schema through the
scratch cache, a command-complete flips the item to finished and yields no
row, anything else is the unexpected-message error. Returns the result with
the item, remaining messages and scratch cache after the call. -/
def PipelineItem.tryNext (it : PipelineItem) (res : List Message)
    (ranges : Ranges) :
    Except Error (Option Row × PipelineItem × List Message × Ranges) :=
  if it.finished then
    .ok (none, it, res, ranges)
  else
    match res with
    | [] => .error .transport
    | Message.dataRow body :: rest =>
        let d := Row.tryNew it.columns body ranges
        .ok (some d.1, it, rest, d.2)
    | Message.commandComplete _ :: rest =>
        .ok (none, { it with finished := true }, rest, ranges)
    | _ :: _ => .error .unexpected

/-- The message loop of `PipelineItem::row_affected`: data rows are ignored,
a command-complete message ends the loop with the affected-row count decoded
from its payload, anything else is the unexpected-message error. -/
def rowAffectedLoop : List Message → Except Error (Nat × List Message)
  | [] => .error .transport
  | Message.dataRow _ :: rest => rowAffectedLoop rest
  | Message.commandComplete body :: rest => .ok (bodyToAffectedRows body, rest)
  | _ :: _rest => .error .unexpected

/-- `PipelineItem::row_affected`: asserts (a panic on violation, with the
source's message) that the item is not already finished, then runs the
message loop; on success the item is finished and the count is returned,
together with the remaining messages. -/
def PipelineItem.rowAffected (it : PipelineItem) (res : List Message) :
    Except Error (Nat × PipelineItem × List Message) :=
  if it.finished then
    .error (.panic "PipelineItem has already finished")
  else
    match rowAffectedLoop res with
    | .ok (n, rest) => .ok (n, { it with finished := true }, rest)
    | .error e => .error e

/-! ## Helper lemmas -/

/-- Truncating an extended buffer back to the original length recovers the
original buffer (the rollback step of `query_raw`). -/
theorem take_length_append {α : Type} (l₁ l₂ : List α) :
    (l₁ ++ l₂).take l₁.length = l₁ := by
  induction l₁ with
  | nil => simp
  | cons a l ih => simp [ih]

/-- The advance loop yields an item only as `{ finished := false, columns := c }`,
with the remaining queue exactly the tail `cs`. -/
theorem tryNextLoop_item (c : List Column) (cs : List (List Column))
    (ranges : Ranges) (it : PipelineItem) (s' : PipelineStream) :
    ∀ msgs : List Message,
      tryNextLoop c cs ranges msgs = .ok (some it, s') →
      it = { finished := false, columns := c } ∧ s'.columns = cs := by
  intro msgs
  induction msgs with
  | nil => intro h; simp [tryNextLoop] at h
  | cons m rest ih =>
    intro h
    cases m with
    | bindComplete =>
        simp [tryNextLoop] at h
        obtain ⟨h1, h2⟩ := h
        exact ⟨h1.symm, by rw [← h2]⟩
    | dataRow b => exact ih h
    | commandComplete b => exact ih h
    | readyForQuery => exact ih h
    | other k => simp [tryNextLoop] at h

/-! ## Claims -/

/-- Claim C1: while the column-schema queue is non-empty, the Stream's advance
operation pops the front schema entry and returns a new Item bound to that
schema on a bind-complete message (the only way an Item is returned), discards
data-row, command-complete and ready-for-query messages and keeps reading, and
returns the unexpected-message error on any other message kind. -/
theorem claim_C1 (c : List Column) (cs : List (List Column))
    (rest : List Message) (ranges : Ranges) (b cb : List Nat) (k : Nat)
    (s : PipelineStream) (it : PipelineItem) (s' : PipelineStream) :
    (PipelineStream.tryNext
        { res := Message.bindComplete :: rest, columns := c :: cs, ranges := ranges } =
      .ok (some { finished := false, columns := c },
           { res := rest, columns := cs, ranges := ranges })) ∧
    (PipelineStream.tryNext
        { res := Message.dataRow b :: rest, columns := c :: cs, ranges := ranges } =
      PipelineStream.tryNext { res := rest, columns := c :: cs, ranges := ranges }) ∧
    (PipelineStream.tryNext
        { res := Message.commandComplete cb :: rest, columns := c :: cs, ranges := ranges } =
      PipelineStream.tryNext { res := rest, columns := c :: cs, ranges := ranges }) ∧
    (PipelineStream.tryNext
        { res := Message.readyForQuery :: rest, columns := c :: cs, ranges := ranges } =
      PipelineStream.tryNext { res := rest, columns := c :: cs, ranges := ranges }) ∧
    (PipelineStream.tryNext
        { res := Message.other k :: rest, columns := c :: cs, ranges := ranges } =
      .error .unexpected) ∧
    (s.tryNext = .ok (some it, s') →
      it.finished = false ∧ s.columns = it.columns :: s'.columns) := by
  refine ⟨rfl, rfl, rfl, rfl, rfl, ?_⟩
  intro h
  obtain ⟨res, cols, rng⟩ := s
  cases cols with
  | nil => simp [PipelineStream.tryNext] at h
  | cons c0 cs0 =>
      have h' : tryNextLoop c0 cs0 rng res = .ok (some it, s') := h
      obtain ⟨h1, h2⟩ := tryNextLoop_item c0 cs0 rng it s' res h'
      subst h1
      exact ⟨rfl, by simp [h2]⟩

/-- Claim C1, witnessed at a bind-complete message heading a singleton queue. -/
theorem claim_C1_witness :
    PipelineItem.finished { finished := false, columns := ([] : List Column) } = false ∧
    ([[]] : List (List Column)) =
      PipelineItem.columns { finished := false, columns := ([] : List Column) } ::
        PipelineStream.columns { res := [], columns := [], ranges := [] } :=
  (claim_C1 [] [] [] [] [] [] 0
      { res := [Message.bindComplete], columns := [[]], ranges := [] }
      { finished := false, columns := [] }
      { res := [], columns := [], ranges := [] }).2.2.2.2.2 rfl

/-- Claim C2: a `query_raw` (or `query`) call whose encoding step fails
returns the encoding error, truncates the shared buffer back to exactly its
prior length, and leaves the column-schema queue unchanged: the pipeline
state after the call is the state before it. -/
theorem claim_C2 (enc : Encoder) (p : Pipeline) (stmt : Statement)
    (params : List Param) (e : Error)
    (harity : params.length = stmt.params.length)
    (herr : (enc p.syncMode stmt params).err = some e) :
    p.queryRaw stmt params enc = (.error e, p) := by
  simp only [Pipeline.queryRaw, harity, ne_eq, not_true_eq_false, if_false,
    herr, take_length_append]

/-- Claim C2, witnessed at an always-failing encoder on the empty pipeline. -/
theorem claim_C2_witness :
    Pipeline.queryRaw { syncMode := true, columns := [], buf := [] }
        { params := [], columns := [] } []
        (fun _ _ _ => { appended := [7], err := some Error.unexpected }) =
      (.error Error.unexpected, { syncMode := true, columns := [], buf := [] }) :=
  claim_C2 (fun _ _ _ => { appended := [7], err := some Error.unexpected })
    { syncMode := true, columns := [], buf := [] }
    { params := [], columns := [] } [] Error.unexpected rfl rfl

/-- Claim C3: for a non-empty buffer, the boundary count handed to the
transport is the column-schema queue length in sync mode with the buffer
passed through untouched, and exactly 1 in unsync mode, where a single
synchronization marker is appended exactly when `ENCODE_SYNC` asks for it. -/
theorem claim_C3 (cols : List (List Column)) (buf : List Nat) (h : buf ≠ []) :
    Client.pipelineDispatch true true cols buf = .ok (buf, cols.length) ∧
    Client.pipelineDispatch true false cols buf = .ok (buf, cols.length) ∧
    Client.pipelineDispatch false true cols buf =
      .ok (buf ++ syncMessageBytes, 1) ∧
    Client.pipelineDispatch false false cols buf = .ok (buf, 1) := by
  cases buf with
  | nil => exact absurd rfl h
  | cons a l =>
      exact ⟨rfl, rfl, rfl, rfl⟩

/-- Claim C3, witnessed on a one-byte buffer and a one-entry queue. -/
theorem claim_C3_witness :
    Client.pipelineDispatch true true [[]] [0] = .ok ([0], 1) ∧
    Client.pipelineDispatch true false [[]] [0] = .ok ([0], 1) ∧
    Client.pipelineDispatch false true [[]] [0] =
      .ok ([0] ++ syncMessageBytes, 1) ∧
    Client.pipelineDispatch false false [[]] [0] = .ok ([0], 1) :=
  claim_C3 [[]] [0] (by simp)

/-- Claim C4: a `query_raw` call whose parameter-sequence length differs from
the statement's expected parameter count fails with the binding-mismatch
error and leaves the pipeline (queue and buffer) unchanged, before any bytes
are written. -/
theorem claim_C4 (enc : Encoder) (p : Pipeline) (stmt : Statement)
    (params : List Param)
    (hne : params.length ≠ stmt.params.length) :
    p.queryRaw stmt params enc =
      (.error (.bindMismatch stmt.params.length params.length), p) := by
  simp [Pipeline.queryRaw, hne]

/-- Claim C4, witnessed at a one-parameter statement bound to zero values. -/
theorem claim_C4_witness :
    Pipeline.queryRaw { syncMode := true, columns := [], buf := [] }
        { params := [42], columns := [] } []
        (fun _ _ _ => { appended := [], err := none }) =
      (.error (.bindMismatch 1 0), { syncMode := true, columns := [], buf := [] }) :=
  claim_C4 (fun _ _ _ => { appended := [], err := none })
    { syncMode := true, columns := [], buf := [] }
    { params := [42], columns := [] } [] (by simp)

/-- Claim C5, counterexample: submitting with an empty buffer hits the
`assert!(!buf.is_empty())` and aborts with a fatal assertion (panic), which
is not a structured error value returned to the immediate caller. -/
theorem claim_C5_counterexample :
    Client.pipelineDispatch true true [] [] =
      .error (.panic "assertion failed: !buf.is_empty()") ∧
    Error.isStructured (.panic "assertion failed: !buf.is_empty()") = false :=
  ⟨rfl, rfl⟩

/-- Claim C5 (amended): submitting a pipeline whose buffer is empty fails
fast before any I/O — no buffer is handed to the transport — but the failure
is a fatal assertion (panic), not a structured error value. -/
theorem claim_C5 (m es sm : Bool) (cols : List (List Column))
    (replies : List Message) :
    Client.pipelineDispatch m es cols [] =
      .error (.panic "assertion failed: !buf.is_empty()") ∧
    Client.pipelineRun { syncMode := sm, columns := cols, buf := [] } replies =
      .error (.panic "assertion failed: !buf.is_empty()") := by
  refine ⟨?_, ?_⟩ <;>
    cases m <;> cases es <;>
      simp [Client.pipelineDispatch, Client.pipelineRun]

/-- Claim C6: calling `row_affected` on an already finished Item aborts with
the fatal assertion carrying the source's message; on an unfinished Item it
discards data-row messages and keeps looping, finishes the Item and returns
the decoded affected-row count on a command-complete message, and fails with
the unexpected-message error on any other message kind. -/
theorem claim_C6 (cols : List Column) (res rest : List Message)
    (body cb : List Nat) (k : Nat) :
    (PipelineItem.rowAffected { finished := true, columns := cols } res =
      .error (.panic "PipelineItem has already finished")) ∧
    (PipelineItem.rowAffected { finished := false, columns := cols }
        (Message.dataRow body :: rest) =
      PipelineItem.rowAffected { finished := false, columns := cols } rest) ∧
    (PipelineItem.rowAffected { finished := false, columns := cols }
        (Message.commandComplete cb :: rest) =
      .ok (bodyToAffectedRows cb, { finished := true, columns := cols }, rest)) ∧
    (PipelineItem.rowAffected { finished := false, columns := cols }
        (Message.bindComplete :: rest) = .error .unexpected) ∧
    (PipelineItem.rowAffected { finished := false, columns := cols }
        (Message.readyForQuery :: rest) = .error .unexpected) ∧
    (PipelineItem.rowAffected { finished := false, columns := cols }
        (Message.other k :: rest) = .error .unexpected) :=
  ⟨rfl, rfl, rfl, rfl, rfl, rfl⟩

/-- Claim C7: a finished Item's advance returns "no more rows" at once with
the reply cursor untouched; an unfinished Item reads exactly the next reply
message — a data row is decoded against the Item's schema and returned, a
command-complete flips the Item to finished (a state its advance never
leaves) and yields no row, and every other message kind is the
unexpected-message error. -/
theorem claim_C7 (cols : List Column) (res rest : List Message)
    (ranges : Ranges) (body cb : List Nat) (k : Nat) :
    (PipelineItem.tryNext { finished := true, columns := cols } res ranges =
      .ok (none, { finished := true, columns := cols }, res, ranges)) ∧
    (PipelineItem.tryNext { finished := false, columns := cols }
        (Message.dataRow body :: rest) ranges =
      .ok (some (Row.tryNew cols body ranges).1,
           { finished := false, columns := cols }, rest,
           (Row.tryNew cols body ranges).2)) ∧
    (PipelineItem.tryNext { finished := false, columns := cols }
        (Message.commandComplete cb :: rest) ranges =
      .ok (none, { finished := true, columns := cols }, rest, ranges)) ∧
    (PipelineItem.tryNext { finished := false, columns := cols }
        (Message.bindComplete :: rest) ranges = .error .unexpected) ∧
    (PipelineItem.tryNext { finished := false, columns := cols }
        (Message.readyForQuery :: rest) ranges = .error .unexpected) ∧
    (PipelineItem.tryNext { finished := false, columns := cols }
        (Message.other k :: rest) ranges = .error .unexpected) :=
  ⟨rfl, rfl, rfl, rfl, rfl, rfl⟩

/-- The advance loop never produces the "no more items" outcome: `none` can
only come from the empty-queue branch of `try_next`. -/
theorem tryNextLoop_ne_none (c : List Column) (cs : List (List Column))
    (ranges : Ranges) (s' : PipelineStream) :
    ∀ msgs : List Message,
      tryNextLoop c cs ranges msgs ≠ .ok (none, s') := by
  intro msgs
  induction msgs with
  | nil => simp [tryNextLoop]
  | cons m rest ih =>
    cases m with
    | bindComplete => simp [tryNextLoop]
    | dataRow b => exact ih
    | commandComplete b => exact ih
    | readyForQuery => exact ih
    | other k => simp [tryNextLoop]

/-- Claim C8: the Stream's advance returns "no more items" exactly from the
empty-queue terminal state, leaving the stream untouched, so every later
call returns "no more items" again, never errors, and reads no message. -/
theorem claim_C8 (s s' : PipelineStream)
    (h : s.tryNext = .ok (none, s')) :
    s' = s ∧ s.columns = [] ∧ s'.tryNext = .ok (none, s') := by
  obtain ⟨res, cols, rng⟩ := s
  cases cols with
  | nil =>
      have hs : ({ res := res, columns := [], ranges := rng } : PipelineStream) = s' := by
        have h' : (Except.ok (none, ({ res := res, columns := [], ranges := rng } : PipelineStream)) :
            Except Error (Option PipelineItem × PipelineStream)) = .ok (none, s') := h
        simpa using h'
      subst hs
      exact ⟨rfl, rfl, rfl⟩
  | cons c0 cs0 =>
      exact absurd h (tryNextLoop_ne_none c0 cs0 rng s' res)

/-- Claim C8, witnessed at the exhausted stream. -/
theorem claim_C8_witness :
    ({ res := [], columns := [], ranges := [] } : PipelineStream) =
      { res := [], columns := [], ranges := [] } ∧
    PipelineStream.columns { res := [], columns := [], ranges := [] } = [] ∧
    PipelineStream.tryNext { res := [], columns := [], ranges := [] } =
      .ok (none, { res := [], columns := [], ranges := [] }) :=
  claim_C8 { res := [], columns := [], ranges := [] }
    { res := [], columns := [], ranges := [] } rfl

/-- The rollback behaviour of one failing `query_raw` call: the pipeline is
returned unchanged together with the encoder's error. -/
theorem queryRaw_encode_err (enc : Encoder) (p : Pipeline) (stmt : Statement)
    (params : List Param) (e : Error)
    (harity : params.length = stmt.params.length)
    (herr : (enc p.syncMode stmt params).err = some e) :
    p.queryRaw stmt params enc = (.error e, p) := by
  simp only [Pipeline.queryRaw, harity, ne_eq, not_true_eq_false, if_false,
    herr, take_length_append]

/-- Running a sequence of builder calls from any pipeline appends to the
queue exactly the schemas of the calls that succeed, in order, and appends to
the buffer exactly their encoded bytes, in the same order; the mode never
changes. -/
theorem runQueries_spec (enc : Encoder) (qs : List (Statement × List Param)) :
    ∀ p : Pipeline,
      (Pipeline.runQueries enc p qs).syncMode = p.syncMode ∧
      (Pipeline.runQueries enc p qs).columns =
        p.columns ++
          (qs.filter (querySucceeds enc p.syncMode)).map (fun q => q.1.columns) ∧
      (Pipeline.runQueries enc p qs).buf =
        p.buf ++
          ((qs.filter (querySucceeds enc p.syncMode)).map
            (fun q => (enc p.syncMode q.1 q.2).appended)).flatten := by
  induction qs with
  | nil => intro p; simp [Pipeline.runQueries]
  | cons q qs ih =>
    intro p
    by_cases h1 : q.2.length = q.1.params.length
    · cases herr : (enc p.syncMode q.1 q.2).err with
      | none =>
          have hstep : (p.queryRaw q.1 q.2 enc).2 =
              { syncMode := p.syncMode,
                columns := p.columns ++ [q.1.columns],
                buf := p.buf ++ (enc p.syncMode q.1 q.2).appended } := by
            simp [Pipeline.queryRaw, h1, herr]
          have hsucc : querySucceeds enc p.syncMode q = true := by
            simp [querySucceeds, h1, herr]
          obtain ⟨m1, m2, m3⟩ := ih (p.queryRaw q.1 q.2 enc).2
          rw [hstep] at m1 m2 m3
          refine ⟨?_, ?_, ?_⟩
          · simpa [Pipeline.runQueries, hstep] using m1
          · simp only [Pipeline.runQueries, hstep] at m2 ⊢
            simp [m2, List.filter_cons, hsucc]
          · simp only [Pipeline.runQueries, hstep] at m3 ⊢
            simp [m3, List.filter_cons, hsucc]
      | some e =>
          have hstep : p.queryRaw q.1 q.2 enc = (.error e, p) :=
            queryRaw_encode_err enc p q.1 q.2 e h1 herr
          have hfail : querySucceeds enc p.syncMode q = false := by
            simp [querySucceeds, herr]
          obtain ⟨m1, m2, m3⟩ := ih p
          refine ⟨?_, ?_, ?_⟩
          · simpa [Pipeline.runQueries, hstep] using m1
          · simp only [Pipeline.runQueries, hstep]
            simp [m2, List.filter_cons, hfail]
          · simp only [Pipeline.runQueries, hstep]
            simp [m3, List.filter_cons, hfail]
    · have hstep : p.queryRaw q.1 q.2 enc =
          (.error (.bindMismatch q.1.params.length q.2.length), p) := by
        simp [Pipeline.queryRaw, h1]
      have hfail : querySucceeds enc p.syncMode q = false := by
        simp [querySucceeds, h1]
      obtain ⟨m1, m2, m3⟩ := ih p
      refine ⟨?_, ?_, ?_⟩
      · simpa [Pipeline.runQueries, hstep] using m1
      · simp only [Pipeline.runQueries, hstep]
        simp [m2, List.filter_cons, hfail]
      · simp only [Pipeline.runQueries, hstep]
        simp [m3, List.filter_cons, hfail]

/-- Claim C9: for every pipeline built from construction by any sequence of
`query`/`query_raw` calls (succeeding or failing), the column-schema queue
holds exactly one entry per successfully encoded query, in encoding order,
and the buffer is exactly the concatenation of those queries' encoded bytes
in the same order; in particular the queue length equals the number of
encoded queries. -/
theorem claim_C9 (enc : Encoder) (m : Bool) (cap : Nat)
    (qs : List (Statement × List Param)) :
    (Pipeline.runQueries enc (Pipeline.withCapacity m cap) qs).columns =
      (qs.filter (querySucceeds enc m)).map (fun q => q.1.columns) ∧
    (Pipeline.runQueries enc (Pipeline.withCapacity m cap) qs).buf =
      ((qs.filter (querySucceeds enc m)).map
        (fun q => (enc m q.1 q.2).appended)).flatten ∧
    (Pipeline.runQueries enc (Pipeline.withCapacity m cap) qs).columns.length =
      (qs.filter (querySucceeds enc m)).length := by
  obtain ⟨m1, m2, m3⟩ := runQueries_spec enc qs (Pipeline.withCapacity m cap)
  refine ⟨?_, ?_, ?_⟩
  · simpa [Pipeline.withCapacity] using m2
  · simpa [Pipeline.withCapacity] using m3
  · have h2 : (Pipeline.runQueries enc (Pipeline.withCapacity m cap) qs).columns =
        (qs.filter (querySucceeds enc m)).map (fun q => q.1.columns) := by
      simpa [Pipeline.withCapacity] using m2
    simp [h2]

/-- Claim C10, counterexample: the `Default` impl does not succeed — it is
`unimplemented!` and aborts with a panic, so it does not yield the pipeline
`Pipeline::new` builds. -/
theorem claim_C10_counterexample :
    Pipeline.defaultImpl ≠ .ok Pipeline.new ∧
    Pipeline.defaultImpl =
      .error (.panic "not implemented: Please use Pipeline::new or Pipeline::unsync") := by
  refine ⟨?_, rfl⟩
  intro h
  exact Except.noConfusion h

/-- Claim C10 (amended): the `Default` impl of the pipeline type panics as
unimplemented, directing callers to the real constructors; `Pipeline::new`
is the one that yields the empty sync-mode pipeline. -/
theorem claim_C10 :
    Pipeline.defaultImpl =
      .error (.panic "not implemented: Please use Pipeline::new or Pipeline::unsync") ∧
    Pipeline.new = { syncMode := true, columns := [], buf := [] } ∧
    Pipeline.new.syncMode = true :=
  ⟨rfl, rfl, rfl⟩
